import Mathlib

/-!
Verification development for the EtherialSoul server's conversation state
machine: the per-user session store (UserSessionManager), the block Pacer
(BufferManager), the StateOrchestrator, the TimerManager and the
relevance-check prompt construction (GeminiService).

The JavaScript source is shallowly embedded as pure Lean functions over an
explicit per-user state: mutation of the session object becomes explicit
state passing (in particular getNextBlock, which in the source mutates
buffer.isComplete when the cursor is past the end, here returns the
updated buffer together with its result).  Each connection's session,
pacer chain and timers are independent per user (the source keys every
map by userId), so the embedding models the state attached to one user;
the TimerManager model keeps the userId key to state the per-user claims
literally.  The UserSessionManager class is embedded from its source as
bundled in the repository's DEBUGGING_AUTH.md notes; its wall-clock
timestamp fields (lastTypingTime, lastCheckTime, timerStartTime) are set
from Date.now for logging only, are not observed by any claim, and are
omitted.
-/

namespace EtherialSoul

/-- Role of a history entry: the user or the model. -/
inductive Role where
  | user
  | model
deriving DecidableEq, Repr

/-- One conversation history entry (role plus content; the timestamp
string attached by addUserMessage/addAIMessage is omitted). -/
structure HistoryEntry where
  role : Role
  content : String
deriving DecidableEq, Repr

/-- One emission unit produced by the LLM: text, a typing time in seconds
(a JS number, embedded as a rational) and an integer group tag. -/
structure Block where
  text : String
  typingTime : ℚ
  group : Int
deriving DecidableEq, Repr

/-- The buffer object of UserSessionManager.getSession / setBuffer: the
block list, the cursor, the STORED currentGroup (the group of the block
being sent, null once exhausted), the STORED mutable isComplete flag
(written by getNextBlock, advanceBlock and markBufferComplete), and the
pause flag. -/
structure BufferState where
  blocks : List Block
  currentIndex : Nat
  currentGroup : Option Int
  isComplete : Bool
  isPaused : Bool
deriving DecidableEq, Repr

/-- UserSessionManager.getNextBlock: when the cursor is past the end, set
buffer.isComplete to true and return null; otherwise return the block at
the cursor unchanged.  The source mutates the session's buffer, so the
embedding returns the updated buffer together with the result. -/
def getNextBlock (b : BufferState) : BufferState × Option Block :=
  if b.blocks.length ≤ b.currentIndex then
    ({ b with isComplete := true }, none)
  else
    (b, b.blocks.get? b.currentIndex)

/-- UserSessionManager.getCurrentGroup: read the stored currentGroup
field. -/
def getCurrentGroup (b : BufferState) : Option Int :=
  b.currentGroup

/-- UserSessionManager.advanceBlock: increment the cursor; while still in
range, store the group of the new current block in currentGroup;
otherwise set isComplete to true and currentGroup to null. -/
def advanceBlock (b : BufferState) : BufferState :=
  let i2 := b.currentIndex + 1
  if i2 < b.blocks.length then
    { b with currentIndex := i2, currentGroup := (b.blocks.get? i2).map Block.group }
  else
    { b with currentIndex := i2, currentGroup := none, isComplete := true }

/-- UserSessionManager.isBufferComplete: read the stored isComplete
flag. -/
def isBufferComplete (b : BufferState) : Bool :=
  b.isComplete

/-- UserSessionManager.markBufferComplete: force the stored isComplete
flag to true. -/
def markBufferComplete (b : BufferState) : BufferState :=
  { b with isComplete := true }

/-- UpdateCheck flags of a session, from the updateCheck object of
UserSessionManager.getSession (lastCheckTime omitted). -/
structure UpdateCheckState where
  needsUpdate : Bool
  waitingForGroup : Bool
deriving DecidableEq, Repr

/-- EndUpdate flags of a session, from the endUpdate object of
UserSessionManager.getSession (timerStartTime omitted). -/
structure EndUpdateState where
  timerActive : Bool
  userMessagedSinceLastEndUpdate : Bool
deriving DecidableEq, Repr

/-- Typing flags of a session, from the typing object of
UserSessionManager.getSession (lastTypingTime omitted). -/
structure TypingState where
  isTyping : Bool
  shouldUseIdleTimer : Bool
deriving DecidableEq, Repr

/-- The per-connection session aggregate created lazily by
UserSessionManager.getSession: history, buffer, typing, updateCheck and
endUpdate state. -/
structure Session where
  history : List HistoryEntry
  buffer : BufferState
  updateCheck : UpdateCheckState
  endUpdate : EndUpdateState
  typing : TypingState
deriving DecidableEq, Repr

/-- The delivery channel: only its liveness is observable to this layer. -/
structure Socket where
  connected : Bool
deriving DecidableEq, Repr

/-- The four named timers of TimerManager. -/
inductive TimerType where
  | typingIdle
  | maxTyping
  | groupDelay
  | endUpdate
deriving DecidableEq, Repr

/-- Observable events of one user's pipeline: emissions on the channel,
callback invocations, scheduling of the next pacer step, timer starts. -/
inductive Event where
  | aiBlock (text : String) (group : Int)
  | aiComplete
  | errEvent
  | groupComplete (g : Option Int)
  | bufferComplete
  | schedule (delayMs : ℚ)
  | timerStarted (t : TimerType)
deriving DecidableEq, Repr

/-- Combined per-user state of the session store, the orchestrator's
registered socket, the TimerManager entries for this user (active or not),
and the BufferManager pacer chain.  `pacerTimeout` is the entry of
`sendingTimeouts` for this user (the scheduled next-block firing);
`cancelledIds` records every timeout id passed to clearTimeout, and
`nextId` supplies fresh timeout ids. -/
structure SysState where
  session : Session
  socket : Option Socket
  timers : TimerType → Bool
  pacerTimeout : Option Nat
  cancelledIds : List Nat
  nextId : Nat

/-- BufferManager.stopSending: clear the scheduled next-block timeout for
the user, if any. -/
def stopSending (st : SysState) : SysState :=
  match st.pacerTimeout with
  | some id => { st with pacerTimeout := none, cancelledIds := st.cancelledIds ++ [id] }
  | none => st

/-- The delay computed at BufferManager._sendNextBlock line 103:
typingTime converted to milliseconds, clamped to a one-second minimum. -/
def computeDelay (b : Block) : ℚ :=
  max (b.typingTime * 1000) 1000

/-- BufferManager._sendNextBlock: one pacer emission step.  Checks socket
liveness, the pause flag and the update-check interrupt gate; then calls
getNextBlock (whose isComplete side effect is threaded through), emits
the block, appends it to model history, advances the cursor via
advanceBlock, fires onGroupComplete when the stored currentGroup changed,
and schedules the next step after `computeDelay`.  Callback invocations
are events. -/
def sendNextBlock (st : SysState) : SysState × List Event :=
  match st.socket with
  | none => (stopSending st, [])
  | some s =>
    if s.connected = false then
      (stopSending st, [])
    else if st.session.buffer.isPaused = true then
      (st, [])
    else if st.session.updateCheck.needsUpdate = true ∧
            st.session.updateCheck.waitingForGroup = false then
      ({ st with pacerTimeout := none }, [])
    else
      let gn := getNextBlock st.session.buffer
      let stg : SysState := { st with session := { st.session with buffer := gn.1 } }
      match gn.2 with
      | none => ({ stg with pacerTimeout := none }, [Event.bufferComplete])
      | some b =>
        let previousGroup := getCurrentGroup stg.session.buffer
        let buf2 := advanceBlock stg.session.buffer
        let session2 : Session :=
          { stg.session with
            history := stg.session.history ++ [{ role := Role.model, content := b.text }],
            buffer := buf2 }
        let st2 : SysState :=
          { stg with
            session := session2,
            pacerTimeout := some st.nextId,
            nextId := st.nextId + 1 }
        (st2, [Event.aiBlock b.text b.group]
              ++ (if previousGroup ≠ getCurrentGroup buf2 then
                    [Event.groupComplete previousGroup]
                  else [])
              ++ [Event.schedule (computeDelay b)])

/-- Iterate the pacer emission step n times, accumulating events. -/
def pacerRun : Nat → SysState → SysState × List Event
  | 0, st => (st, [])
  | n + 1, st =>
    let r1 := sendNextBlock st
    let r2 := pacerRun n r1.1
    (r2.1, r1.2 ++ r2.2)

/-- BufferManager.startSendingBuffer: validate the socket (returning at
once when it is missing or not connected), cancel any existing sending
process, reset the pause flag (resumeBuffer), and run the first emission
step. -/
def startSendingBuffer (st : SysState) : SysState × List Event :=
  match st.socket with
  | none => (st, [])
  | some s =>
    if s.connected = false then
      (st, [])
    else
      let st1 := stopSending st
      let st2 : SysState :=
        { st1 with session :=
          { st1.session with buffer := { st1.session.buffer with isPaused := false } } }
      sendNextBlock st2

/-- TimerManager.cancelAllTimers for this user. -/
def cancelAllTimers (st : SysState) : SysState :=
  { st with timers := fun _ => false }

/-- Set one timer active in the orchestrator-level timer view. -/
def setTimerOn (f : TimerType → Bool) (t : TimerType) : TimerType → Bool :=
  fun x => if x = t then true else f x

/-- UserSessionManager.setBuffer: install a new buffer with the cursor at
zero, the stored currentGroup initialised to the first block's group (or
null for an empty list), and the isComplete and isPaused flags reset to
false. -/
def setBuffer (s : Session) (newBlocks : List Block) : Session :=
  { s with buffer :=
    { blocks := newBlocks, currentIndex := 0,
      currentGroup := (newBlocks.get? 0).map Block.group,
      isComplete := false, isPaused := false } }

/-- The first phase of StateOrchestrator.triggerUpdateBuffer, executed
before the LLM call: cancel all timers, then stop the current buffer
sending. -/
def regenPhase1 (st : SysState) : SysState :=
  stopSending (cancelAllTimers st)

/-- The second phase of StateOrchestrator.triggerUpdateBuffer, executed
when the LLM call returns.  On failure the catch block emits a single
error event when a socket is registered.  On success the new buffer is
installed, the update-check flags are cleared, and if a socket is
registered the pacer is started (startSendingBuffer itself validates the
socket's liveness). -/
def regenPhase2 (st : SysState) (result : Except String (List Block)) :
    SysState × List Event :=
  match result with
  | Except.error _ =>
    (st, match st.socket with
         | some _ => [Event.errEvent]
         | none => [])
  | Except.ok newBlocks =>
    let st1 : SysState :=
      { st with session :=
        { setBuffer st.session newBlocks with
          updateCheck := { needsUpdate := false, waitingForGroup := false } } }
    match st1.socket with
    | some _ => startSendingBuffer st1
    | none => (st1, [])

/-- StateOrchestrator.triggerUpdateBuffer, as the composition of the
pre-LLM phase and the post-LLM phase; the LLM response (or failure) is a
parameter. -/
def triggerUpdateBuffer (st : SysState) (result : Except String (List Block)) :
    SysState × List Event :=
  regenPhase2 (regenPhase1 st) result

/-- StateOrchestrator._handleBufferComplete: emit ai_complete when a
socket is registered; when needsUpdate holds start the group-delay flow,
otherwise start the 25 s EndUpdate timer exactly when the user has
messaged since the last EndUpdate. -/
def handleBufferComplete (st : SysState) : SysState × List Event :=
  let completeEv : List Event :=
    match st.socket with
    | some _ => [Event.aiComplete]
    | none => []
  if st.session.updateCheck.needsUpdate = true then
    ({ st with timers := setTimerOn st.timers TimerType.groupDelay },
     completeEv ++ [Event.timerStarted TimerType.groupDelay])
  else if st.session.endUpdate.userMessagedSinceLastEndUpdate = true then
    ({ st with
       session := { st.session with
         endUpdate := { st.session.endUpdate with timerActive := true } },
       timers := setTimerOn st.timers TimerType.endUpdate },
     completeEv ++ [Event.timerStarted TimerType.endUpdate])
  else
    (st, completeEv)

/-- StateOrchestrator.stopAIResponse: cancel all timers, stop buffer
sending, forcibly mark the buffer complete, and emit ai_complete when the
handler received a socket. -/
def stopAIResponse (st : SysState) (socket : Option Socket) : SysState × List Event :=
  let st1 := cancelAllTimers st
  let st2 := stopSending st1
  let st3 : SysState :=
    { st2 with session :=
      { st2.session with buffer := markBufferComplete st2.session.buffer } }
  (st3, match socket with
        | some _ => [Event.aiComplete]
        | none => [])

/-- Two consecutive Stop events, with the emissions of both in order. -/
def stopTwice (st : SysState) (socket : Option Socket) : SysState × List Event :=
  let r1 := stopAIResponse st socket
  let r2 := stopAIResponse r1.1 socket
  (r2.1, r1.2 ++ r2.2)

/-- BufferManager.isSending: a next-block firing is pending. -/
def isSending (st : SysState) : Bool :=
  st.pacerTimeout.isSome

/-- The dispatch decision of StateOrchestrator.handleUserMessage: the
relevance-check (UpdateCheck) path is taken exactly when the pacer is
sending and the buffer is not complete; otherwise the message goes
straight to triggerUpdateBuffer (RegenerateNow). -/
def userMessageChoosesInterrupt (st : SysState) : Bool :=
  isSending st && !(isBufferComplete st.session.buffer)

end EtherialSoul

namespace EtherialSoul

/-- TimerManager state: one optional pending timeout id per user and timer
name, the list of timeout ids passed to clearTimeout, and a fresh-id
supply. -/
structure TMState where
  entries : String → TimerType → Option Nat
  cancelled : List Nat
  nextId : Nat

/-- TimerManager._clearTimer: clear the stored timeout of this type for
this user, when present. -/
def tmClearTimer (st : TMState) (uid : String) (ty : TimerType) : TMState :=
  match st.entries uid ty with
  | some id =>
    { st with
      entries := fun u t => if u = uid ∧ t = ty then none else st.entries u t,
      cancelled := st.cancelled ++ [id] }
  | none => st

/-- TimerManager._setTimer: clear any existing timer of this type, then
store a fresh timeout id for it. -/
def tmSetTimer (st : TMState) (uid : String) (ty : TimerType) : TMState :=
  let st1 := tmClearTimer st uid ty
  { st1 with
    entries := fun u t => if u = uid ∧ t = ty then some st1.nextId else st1.entries u t,
    nextId := st1.nextId + 1 }

/-- The state in which a firing timer's callback begins: the wrapper
passed to setTimeout deletes the user's entry for this timer type before
invoking the callback. -/
def tmFireEntry (st : TMState) (uid : String) (ty : TimerType) : TMState :=
  { st with
    entries := fun u t => if u = uid ∧ t = ty then none else st.entries u t }

/-- TimerManager.isTimerActive. -/
def tmIsTimerActive (st : TMState) (uid : String) (ty : TimerType) : Bool :=
  (st.entries uid ty).isSome

end EtherialSoul

namespace EtherialSoul

/-- The data computed by GeminiService.updateCheck before the prompt is
assembled: the sent and pending halves of the buffer relative to the
cursor, and the user-message lines of the recent history. -/
structure CheckPromptData where
  sentBlocks : List Block
  pendingBlocks : List Block
  userMessageList : List String
  sentText : String
  pendingText : String
  userMessagesText : String
deriving DecidableEq, Repr

/-- GeminiService.updateCheck prompt construction: the buffer is split at
currentIndex into sent and pending blocks (JS slice semantics), each half
rendered as newline-joined text with a None placeholder when empty, and
the USER MESSAGES section built from the user-role entries of the recent
history. -/
def buildUpdateCheckData (recentHistory : List HistoryEntry)
    (currentBuffer : List Block) (currentIndex : Nat) : CheckPromptData :=
  let sentBlocks := currentBuffer.take currentIndex
  let pendingBlocks := currentBuffer.drop currentIndex
  let sentText :=
    if 0 < sentBlocks.length then String.intercalate "\n" (sentBlocks.map Block.text)
    else "None"
  let pendingText :=
    if 0 < pendingBlocks.length then String.intercalate "\n" (pendingBlocks.map Block.text)
    else "None"
  let userMessageList :=
    (recentHistory.filter (fun m => m.role == Role.user)).map HistoryEntry.content
  { sentBlocks := sentBlocks
    pendingBlocks := pendingBlocks
    userMessageList := userMessageList
    sentText := sentText
    pendingText := pendingText
    userMessagesText := String.intercalate "\n" userMessageList }

end EtherialSoul

namespace EtherialSoul

/-- Sample block in group 1. -/
def blkA : Block := { text := "a", typingTime := 1, group := 1 }

/-- Second sample block in group 1. -/
def blkB : Block := { text := "b", typingTime := 1, group := 1 }

/-- Sample block in group 2. -/
def blkC : Block := { text := "c", typingTime := 1, group := 2 }

/-- Sample block with a typing time below one second. -/
def blkHalf : Block := { text := "h", typingTime := 1 / 2, group := 1 }

/-- An empty baseline session, as getSession creates it. -/
def baseSession : Session :=
  { history := []
    buffer := { blocks := [], currentIndex := 0, currentGroup := none,
                isComplete := false, isPaused := false }
    updateCheck := { needsUpdate := false, waitingForGroup := false }
    endUpdate := { timerActive := false, userMessagedSinceLastEndUpdate := false }
    typing := { isTyping := false, shouldUseIdleTimer := false } }

/-- A baseline per-user state with a live socket, no timers and no pacer
chain. -/
def baseState : SysState :=
  { session := baseSession
    socket := some { connected := true }
    timers := fun _ => false
    pacerTimeout := none
    cancelledIds := []
    nextId := 0 }

lemma sendNextBlock_stale (st : SysState)
    (h1 : st.session.updateCheck.needsUpdate = true)
    (h2 : st.session.updateCheck.waitingForGroup = false) :
    (sendNextBlock st).2 = [] ∧ (sendNextBlock st).1.session = st.session := by
  unfold sendNextBlock
  cases hsoc : st.socket with
  | none =>
    unfold stopSending
    cases hpt : st.pacerTimeout <;> simp
  | some s =>
    cases s with
    | mk c =>
      cases c with
      | false =>
        unfold stopSending
        cases hpt : st.pacerTimeout <;> simp
      | true =>
        by_cases hpause : st.session.buffer.isPaused = true
        · simp [hpause]
        · simp [hpause, h1, h2]

/-- C1: once the Orchestrator has committed a relevance interrupt
(needsUpdate true and waitingForGroup false), the Pacer emits nothing
more from the stale buffer: any number of emission steps produce no
events at all — no block emission, no callback — and leave the session
(history, buffer cursor and flags) untouched, until a regeneration
replaces the buffer and resets the flags. -/
theorem C1_stale_buffer_silent (st : SysState) (n : Nat)
    (h1 : st.session.updateCheck.needsUpdate = true)
    (h2 : st.session.updateCheck.waitingForGroup = false) :
    (pacerRun n st).2 = [] ∧ (pacerRun n st).1.session = st.session := by
  induction n generalizing st with
  | zero => simp [pacerRun]
  | succ n ih =>
    have hstep := sendNextBlock_stale st h1 h2
    have h1b : (sendNextBlock st).1.session.updateCheck.needsUpdate = true := by
      rw [hstep.2]; exact h1
    have h2b : (sendNextBlock st).1.session.updateCheck.waitingForGroup = false := by
      rw [hstep.2]; exact h2
    have hrec := ih (sendNextBlock st).1 h1b h2b
    constructor
    · simp [pacerRun, hstep.1, hrec.1]
    · simpa [pacerRun, hrec.2] using hstep.2

/-- Concrete state for the C1 witness: a committed interrupt with two
pending blocks still in the buffer and a live socket. -/
def c1State : SysState :=
  { baseState with session :=
    { baseSession with
      buffer := { blocks := [blkA, blkC], currentIndex := 0, currentGroup := some 1,
                  isComplete := false, isPaused := false }
      updateCheck := { needsUpdate := true, waitingForGroup := false } } }

/-- Witness for C1 at a concrete committed-interrupt state. -/
theorem C1_witness :
    (pacerRun 3 c1State).2 = [] ∧ (pacerRun 3 c1State).1.session = c1State.session :=
  C1_stale_buffer_silent c1State 3 rfl rfl

/-- C4: whenever _handleBufferComplete starts the 25 s EndUpdate timer,
the userMessagedSinceLastEndUpdate flag was true at the moment the
callback ran; the timer is never started when the flag is false. -/
theorem C4_endUpdate_timer_gate (st : SysState)
    (h : Event.timerStarted TimerType.endUpdate ∈ (handleBufferComplete st).2) :
    st.session.endUpdate.userMessagedSinceLastEndUpdate = true := by
  by_cases hm : st.session.endUpdate.userMessagedSinceLastEndUpdate = true
  · exact hm
  · exfalso
    unfold handleBufferComplete at h
    cases hsoc : st.socket with
    | none =>
      by_cases hn : st.session.updateCheck.needsUpdate = true <;>
        simp [hsoc, hn, hm] at h
    | some s =>
      by_cases hn : st.session.updateCheck.needsUpdate = true <;>
        simp [hsoc, hn, hm] at h

/-- Concrete state for the C4 witness: buffer complete with the flag
set and no pending relevance interrupt. -/
def c4State : SysState :=
  { baseState with session :=
    { baseSession with
      endUpdate := { timerActive := false, userMessagedSinceLastEndUpdate := true } } }

/-- Witness for C4: at the concrete state the EndUpdate timer is started
and the flag is observed true. -/
theorem C4_witness : c4State.session.endUpdate.userMessagedSinceLastEndUpdate = true :=
  C4_endUpdate_timer_gate c4State (by decide)

lemma advanceBlock_currentIndex (b : BufferState) :
    (advanceBlock b).currentIndex = b.currentIndex + 1 := by
  simp only [advanceBlock]
  split <;> rfl

/-- C6: in an emission step that emits a block, the cursor advances by
one, and onGroupComplete fires with the previous group exactly when the
stored current group after advancing differs from it — including when the
buffer becomes exhausted and the current group becomes none. -/
theorem C6_group_boundary (st : SysState) (b : Block)
    (hs : st.socket = some { connected := true })
    (hp : st.session.buffer.isPaused = false)
    (hg : st.session.updateCheck.needsUpdate = false ∨
          st.session.updateCheck.waitingForGroup = true)
    (hb : (getNextBlock st.session.buffer).2 = some b) :
    (sendNextBlock st).1.session.buffer.currentIndex = st.session.buffer.currentIndex + 1
    ∧ (Event.groupComplete (getCurrentGroup st.session.buffer) ∈ (sendNextBlock st).2
       ↔ getCurrentGroup st.session.buffer ≠ getCurrentGroup (advanceBlock st.session.buffer)) := by
  have hgate : ¬ (st.session.updateCheck.needsUpdate = true ∧
      st.session.updateCheck.waitingForGroup = false) := by
    rcases hg with hg | hg <;> simp [hg]
  have hlen : ¬ (st.session.buffer.blocks.length ≤ st.session.buffer.currentIndex) := by
    intro hle
    unfold getNextBlock at hb
    rw [if_pos hle] at hb
    simp at hb
  have hgn : getNextBlock st.session.buffer =
      (st.session.buffer, st.session.buffer.blocks.get? st.session.buffer.currentIndex) := by
    unfold getNextBlock
    rw [if_neg hlen]
  have hb2 : st.session.buffer.blocks.get? st.session.buffer.currentIndex = some b := by
    rw [hgn] at hb
    exact hb
  unfold sendNextBlock
  rw [hs, hgn]
  simp only [hp, hgate, Bool.false_eq_true, if_false, if_neg, ite_false, hb2]
  constructor
  · simp [advanceBlock_currentIndex]
  · by_cases heq : getCurrentGroup st.session.buffer =
        getCurrentGroup (advanceBlock st.session.buffer)
    · simp [heq]
    · simp [heq]

/-- Concrete state for the C6 witness: the block being emitted is the
final block of the buffer, so the step crosses out of the last group. -/
def c6State : SysState :=
  { baseState with session :=
    { baseSession with
      buffer := { blocks := [blkA], currentIndex := 0, currentGroup := some 1,
                  isComplete := false, isPaused := false } } }

/-- Witness for C6 at the final-block state: the group transition to an
exhausted buffer fires onGroupComplete. -/
theorem C6_witness :
    Event.groupComplete (getCurrentGroup c6State.session.buffer) ∈ (sendNextBlock c6State).2
    ↔ getCurrentGroup c6State.session.buffer ≠
        getCurrentGroup (advanceBlock c6State.session.buffer) :=
  (C6_group_boundary c6State blkA rfl rfl (Or.inl rfl) (by decide)).2

/-- C7: the delay scheduled after an emitted block is computeDelay, which
equals the maximum of typingTime times 1000 ms and 1000 ms; for a block
whose typing time is below one second the effective delay is exactly
1000 ms. -/
theorem C7_delay_formula (st : SysState) (b : Block)
    (hs : st.socket = some { connected := true })
    (hp : st.session.buffer.isPaused = false)
    (hg : st.session.updateCheck.needsUpdate = false ∨
          st.session.updateCheck.waitingForGroup = true)
    (hb : (getNextBlock st.session.buffer).2 = some b) :
    Event.schedule (computeDelay b) ∈ (sendNextBlock st).2
    ∧ computeDelay b = max (b.typingTime * 1000) 1000
    ∧ (b.typingTime < 1 → computeDelay b = 1000) := by
  have hgate : ¬ (st.session.updateCheck.needsUpdate = true ∧
      st.session.updateCheck.waitingForGroup = false) := by
    rcases hg with hg | hg <;> simp [hg]
  have hlen : ¬ (st.session.buffer.blocks.length ≤ st.session.buffer.currentIndex) := by
    intro hle
    unfold getNextBlock at hb
    rw [if_pos hle] at hb
    simp at hb
  have hgn : getNextBlock st.session.buffer =
      (st.session.buffer, st.session.buffer.blocks.get? st.session.buffer.currentIndex) := by
    unfold getNextBlock
    rw [if_neg hlen]
  have hb2 : st.session.buffer.blocks.get? st.session.buffer.currentIndex = some b := by
    rw [hgn] at hb
    exact hb
  refine ⟨?_, rfl, ?_⟩
  · unfold sendNextBlock
    rw [hs, hgn]
    simp only [hp, hgate, Bool.false_eq_true, if_false, if_neg, ite_false, hb2]
    simp
  · intro hlt
    have hm : b.typingTime * 1000 < 1000 := by nlinarith
    unfold computeDelay
    exact max_eq_right (le_of_lt hm)

/-- Concrete state for the C7 witness: a single block with a half-second
typing time. -/
def c7State : SysState :=
  { baseState with session :=
    { baseSession with
      buffer := { blocks := [blkHalf], currentIndex := 0, currentGroup := some 1,
                  isComplete := false, isPaused := false } } }

/-- Witness for C7: the half-second block is clamped to the one-second
minimum delay. -/
theorem C7_witness : computeDelay blkHalf = 1000 :=
  (C7_delay_formula c7State blkHalf rfl rfl (Or.inl rfl) rfl).2.2
    (by norm_num [blkHalf])

end EtherialSoul

namespace EtherialSoul

/-- Concrete state for C2: a registered but disconnected socket and a
one-block buffer already in the session store. -/
def c2State : SysState :=
  { baseState with
    socket := some { connected := false }
    session :=
    { baseSession with
      buffer := { blocks := [blkA], currentIndex := 0, currentGroup := some 1,
                  isComplete := false, isPaused := false } } }

/-- Counterexample for C2 as stated: with the channel dead when the LLM
response arrives, triggerUpdateBuffer still installs the new buffer into
the session store — the new buffer is not dropped and the old buffer does
not survive. -/
theorem C2_counterexample :
    c2State.socket = some { connected := false }
    ∧ (triggerUpdateBuffer c2State (Except.ok [blkC])).1.session.buffer.blocks = [blkC]
    ∧ c2State.session.buffer.blocks ≠ [blkC] := by
  refine ⟨rfl, by decide, by decide⟩

/-- C2 amended: all timers are cancelled and the pacer chain is stopped by
the pre-LLM phase of triggerUpdateBuffer, so they are already cancelled
when the LLM call is made; when the channel is dead at response time
nothing is emitted (startSendingBuffer validates liveness and returns),
but the new buffer IS installed into the session store with the cursor at
zero, replacing the old buffer. -/
theorem C2_regenerate_ordering (st : SysState) (bs : List Block)
    (h : st.socket = some { connected := false }) :
    (∀ t, (regenPhase1 st).timers t = false)
    ∧ (regenPhase1 st).pacerTimeout = none
    ∧ (triggerUpdateBuffer st (Except.ok bs)).2 = []
    ∧ (triggerUpdateBuffer st (Except.ok bs)).1.session.buffer.blocks = bs
    ∧ (triggerUpdateBuffer st (Except.ok bs)).1.session.buffer.currentIndex = 0 := by
  refine ⟨?_, ?_, ?_, ?_, ?_⟩ <;>
    cases hpt : st.pacerTimeout <;>
      simp [triggerUpdateBuffer, regenPhase2, regenPhase1, cancelAllTimers, stopSending,
            startSendingBuffer, setBuffer, h, hpt]

/-- Witness for the amended C2 at the concrete dead-channel state. -/
theorem C2_witness :
    (triggerUpdateBuffer c2State (Except.ok [blkC])).2 = [] :=
  (C2_regenerate_ordering c2State [blkC] rfl).2.2.1

/-- Concrete state for C3: a pacer chain is active and the buffer is
mid-stream (cursor 1 of 2, stored currentGroup that of the second block,
stored isComplete still false), as reached after setBuffer and one
emission. -/
def c3State : SysState :=
  { baseState with
    pacerTimeout := some 7
    session :=
    { baseSession with
      history := [{ role := Role.user, content := "hi" },
                  { role := Role.model, content := "a" }]
      buffer := { blocks := [blkA, blkC], currentIndex := 1, currentGroup := some 2,
                  isComplete := false, isPaused := false } } }

/-- Counterexample for C3 as stated: when GenerateBuffer fails during a
mid-stream regeneration, the buffer is NOT marked complete — the error
path of triggerUpdateBuffer never touches the buffer, so the stored
isComplete flag of a half-sent buffer stays false. -/
theorem C3_counterexample :
    isBufferComplete ((triggerUpdateBuffer c3State (Except.error "boom")).1.session.buffer)
      = false
    ∧ (triggerUpdateBuffer c3State (Except.error "boom")).2 = [Event.errEvent] := by
  refine ⟨by decide, by decide⟩

/-- C3 amended: when GenerateBuffer fails with a socket registered,
exactly one error event is emitted, the session survives completely
unchanged (in particular no partially installed buffer and no change to
its stored isComplete flag), and the pacer is stopped, so the dispatch of
a subsequent UserMessage takes the RegenerateNow branch rather than the
interrupt branch. -/
theorem C3_failed_regeneration (st : SysState) (msg : String)
    (h : st.socket.isSome = true) :
    (triggerUpdateBuffer st (Except.error msg)).2 = [Event.errEvent]
    ∧ (triggerUpdateBuffer st (Except.error msg)).1.session = st.session
    ∧ isSending (triggerUpdateBuffer st (Except.error msg)).1 = false
    ∧ userMessageChoosesInterrupt (triggerUpdateBuffer st (Except.error msg)).1 = false := by
  cases hsoc : st.socket with
  | none => rw [hsoc] at h; simp at h
  | some s =>
    refine ⟨?_, ?_, ?_, ?_⟩ <;>
      cases hpt : st.pacerTimeout <;>
        simp [triggerUpdateBuffer, regenPhase2, regenPhase1, cancelAllTimers, stopSending,
              isSending, userMessageChoosesInterrupt, hsoc, hpt]

/-- Witness for the amended C3 at the concrete mid-stream state. -/
theorem C3_witness :
    (triggerUpdateBuffer c3State (Except.error "boom")).2 = [Event.errEvent] :=
  (C3_failed_regeneration c3State "boom" rfl).1

lemma sendNextBlock_cancelled_of_none (st : SysState) (h : st.pacerTimeout = none) :
    (sendNextBlock st).1.cancelledIds = st.cancelledIds := by
  unfold sendNextBlock stopSending
  cases hsoc : st.socket with
  | none => simp [h]
  | some s =>
    cases s with
    | mk c =>
      cases c with
      | false => simp [h]
      | true =>
        by_cases hpause : st.session.buffer.isPaused = true
        · simp [hpause]
        · by_cases hgate : st.session.updateCheck.needsUpdate = true ∧
            st.session.updateCheck.waitingForGroup = false
          · simp [hpause, hgate]
          · cases hb : (getNextBlock st.session.buffer).2 <;>
              simp [hpause, hgate, hb]

/-- Concrete state for the C5 counterexample: an existing pacer chain
(timeout id 5) and a registered but dead socket. -/
def c5State : SysState :=
  { baseState with
    socket := some { connected := false }
    pacerTimeout := some 5 }

/-- Counterexample for C5 as stated: calling startSendingBuffer with a
dead channel while a chain exists returns before the stopSending call, so
the prior chain is neither cancelled nor replaced — it stays scheduled. -/
theorem C5_counterexample :
    c5State.pacerTimeout = some 5
    ∧ (startSendingBuffer c5State).1.pacerTimeout = some 5
    ∧ (startSendingBuffer c5State).1.cancelledIds = [] := by
  refine ⟨rfl, by decide, by decide⟩

/-- C5 amended: at most one emission chain per user is stored (the
sendingTimeouts entry is a single slot), and startSendingBuffer with a
LIVE channel cancels the prior chain before beginning the new emission
loop; with a dead or missing channel it returns immediately, leaving the
prior chain untouched. -/
theorem C5_start_cancels_prior (st : SysState) (id : Nat)
    (h2 : st.pacerTimeout = some id) :
    (st.socket = some { connected := true } →
      (startSendingBuffer st).1.cancelledIds = st.cancelledIds ++ [id])
    ∧ ((st.socket.all fun s => !s.connected) = true →
      (startSendingBuffer st).1 = st ∧ (startSendingBuffer st).2 = []) := by
  constructor
  · intro hs
    have hstop : stopSending st =
        { st with pacerTimeout := none, cancelledIds := st.cancelledIds ++ [id] } := by
      unfold stopSending; rw [h2]
    simp only [startSendingBuffer, hs, hstop]
    simp only [show (({ connected := true } : Socket).connected = false) = False by simp,
               if_false]
    exact sendNextBlock_cancelled_of_none _ rfl
  · intro hdead
    cases hsoc : st.socket with
    | none => simp [startSendingBuffer, hsoc]
    | some s =>
      rw [hsoc] at hdead
      cases s with
      | mk c =>
        cases c with
        | false => simp [startSendingBuffer, hsoc]
        | true => simp at hdead

/-- Concrete state for the C5 witness: a live socket and an existing
chain with timeout id 3. -/
def c5LiveState : SysState :=
  { baseState with pacerTimeout := some 3 }

/-- Witness for the amended C5: starting over a live channel records the
cancellation of the prior chain id. -/
theorem C5_witness :
    (startSendingBuffer c5LiveState).1.cancelledIds = c5LiveState.cancelledIds ++ [3] :=
  (C5_start_cancels_prior c5LiveState 3 rfl).1 rfl

/-- Counterexample for C8 as stated: two consecutive Stop events do not
produce the same emissions as one — each Stop emits its own ai_complete,
so the client observes two events instead of one. -/
theorem C8_counterexample :
    (stopTwice baseState (some { connected := true })).2
      ≠ (stopAIResponse baseState (some { connected := true })).2 := by
  decide

/-- C8 amended: Stop is idempotent on the per-user state — two
consecutive Stop events leave exactly the state one leaves (all timers
cancelled, pacer chain stopped, buffer forcibly complete) — but the
emissions differ: the second Stop emits its own ai_complete, so the
observable emission sequence of two Stops is that of one Stop twice. -/
theorem C8_stop_idempotent_state (st : SysState) (socket : Option Socket) :
    (stopTwice st socket).1 = (stopAIResponse st socket).1
    ∧ (stopTwice st socket).2 = (stopAIResponse st socket).2 ++ (stopAIResponse st socket).2 := by
  constructor
  · cases hpt : st.pacerTimeout <;>
      simp [stopTwice, stopAIResponse, cancelAllTimers, stopSending, markBufferComplete, hpt]
  · rfl

end EtherialSoul

namespace EtherialSoul

/-- C9: the TimerManager keeps at most one pending callback per user and
timer name — setting a timer cancels and replaces any stored one — and a
firing timer's entry is deleted before its callback is invoked, so in the
state in which the callback starts executing, isTimerActive is false for
the timer that just fired. -/
theorem C9_timer_slot_discipline (st : TMState) (uid : String) (ty : TimerType) (id : Nat)
    (h : st.entries uid ty = some id) :
    tmIsTimerActive (tmFireEntry st uid ty) uid ty = false
    ∧ (tmSetTimer st uid ty).entries uid ty = some st.nextId
    ∧ (tmSetTimer st uid ty).cancelled = st.cancelled ++ [id] := by
  refine ⟨?_, ?_, ?_⟩
  · simp [tmIsTimerActive, tmFireEntry]
  · simp [tmSetTimer, tmClearTimer, h]
  · simp [tmSetTimer, tmClearTimer, h]

/-- Concrete TimerManager state for the C9 witness: one pending timeout
for every user and timer name. -/
def c9TMState : TMState :=
  { entries := fun _ _ => some 5, cancelled := [], nextId := 6 }

/-- Witness for C9: after the fire step deletes the entry, the timer that
just fired reads inactive. -/
theorem C9_witness :
    tmIsTimerActive (tmFireEntry c9TMState "u1" TimerType.endUpdate) "u1" TimerType.endUpdate
      = false :=
  (C9_timer_slot_discipline c9TMState "u1" TimerType.endUpdate 5 rfl).1

/-- C10: the USER MESSAGES section of the relevance-check prompt is built
exactly from the user-role entries of the recent history (a string is in
the list iff it is the content of some user-role entry, so model-role
messages are excluded), and the buffer is split at the cursor: the sent
half consists of the blocks at indices below currentIndex and the pending
half of the blocks at or above it. -/
theorem C10_updatecheck_prompt_partition (h : List HistoryEntry) (b : List Block) (i : Nat) :
    (∀ s, s ∈ (buildUpdateCheckData h b i).userMessageList ↔
      ∃ m, m ∈ h ∧ m.role = Role.user ∧ m.content = s)
    ∧ (∀ j, j < i → (buildUpdateCheckData h b i).sentBlocks.get? j = b.get? j)
    ∧ (buildUpdateCheckData h b i).sentBlocks.length = min i b.length
    ∧ (∀ k, (buildUpdateCheckData h b i).pendingBlocks.get? k = b.get? (i + k)) := by
  refine ⟨?_, ?_, ?_, ?_⟩
  · intro s
    simp only [buildUpdateCheckData, List.mem_map, List.mem_filter, beq_iff_eq]
    constructor
    · rintro ⟨m, ⟨hmem, hrole⟩, hcontent⟩
      exact ⟨m, hmem, hrole, hcontent⟩
    · rintro ⟨m, hmem, hrole, hcontent⟩
      exact ⟨m, ⟨hmem, hrole⟩, hcontent⟩
  · intro j hj
    simp [buildUpdateCheckData, List.get?_eq_getElem?, List.getElem?_take, hj]
  · simp [buildUpdateCheckData]
  · intro k
    simp [buildUpdateCheckData, List.get?_eq_getElem?, List.getElem?_drop]

/-- Concrete history for the C10 witness: one user entry and one model
entry. -/
def c10Hist : List HistoryEntry :=
  [{ role := Role.user, content := "hi" }, { role := Role.model, content := "yo" }]

/-- Concrete two-block buffer for the C10 witness. -/
def c10Buf : List Block := [blkA, blkC]

/-- Witness for C10: with the cursor at 1, pending block 0 is the block
at buffer index 1. -/
theorem C10_witness :
    (buildUpdateCheckData c10Hist c10Buf 1).pendingBlocks.get? 0 = c10Buf.get? (1 + 0) :=
  (C10_updatecheck_prompt_partition c10Hist c10Buf 1).2.2.2 0

end EtherialSoul
